import Mathlib

/-!
Verification of the `WeatherApp.get_weather` operation of `src/main.py`
(a Tk weather client). The embedding models the JSON body of the primary
HTTP response, Python `dict.get` with its `AttributeError` behaviour on
non-dict receivers, truthiness, `str.join`, f-string rendering via `str()`,
and the controller state (`result_var`, `icon_label`, `icon_image`).
Network effects are parameters: the outcome of the primary request and a
map from icon URLs to icon-step outcomes.
-/

namespace Weather

/-- JSON values as delivered by the weather API. A number is carried as the
string Python renders for it with `str()` (the only use the program makes of
a numeric value is interpolation into an f-string); a zero number therefore
renders as "0", "0.0" or "-0.0". -/
inductive Json where
  | null
  | str (s : String)
  | num (s : String)
  | obj (fields : List (String × Json))


/-- Python truthiness (`bool(v)`) of a JSON value: `None`, the empty string,
a zero number and the empty dict are falsy. -/
def Json.truthy : Json → Bool
  | .null => false
  | .str s => s != ""
  | .num s => !(s == "0" || s == "0.0" || s == "-0.0")
  | .obj fs => !fs.isEmpty

/-- Python `d.get(k, default)`: the stored value when `d` is a dict with key
`k` (even when that value is `None`), `default` when `d` is a dict without
`k`, and an `AttributeError` (modelled as `.error ()`) when `d` is not a
dict. -/
def pyGet (d : Json) (k : String) (default : Json) : Except Unit Json :=
  match d with
  | .obj fs => .ok ((fs.lookup k).getD default)
  | _ => .error ()

/-- A single-quote character, kept out of string literals. -/
def quoteChar : String := (Char.ofNat 39).toString

mutual

/-- Python `repr()` of a JSON value (escape sequences inside strings are not
modelled; no claim renders a string needing them). -/
def pyRepr : Json → String
  | .null => "None"
  | .str s => quoteChar ++ s ++ quoteChar
  | .num s => s
  | .obj fs => "\x7b" ++ pyReprFields fs ++ "\x7d"

/-- Comma-separated `repr` of the key/value pairs of a dict. -/
def pyReprFields : List (String × Json) → String
  | [] => ""
  | [(k, v)] => quoteChar ++ k ++ quoteChar ++ ": " ++ pyRepr v
  | (k, v) :: rest => quoteChar ++ k ++ quoteChar ++ ": " ++ pyRepr v ++ ", " ++ pyReprFields rest

end

/-- Python `str()` of a JSON value, as used by f-string interpolation. -/
def pyStr : Json → String
  | .str s => s
  | j => pyRepr j

/-- Python `sep.join(xs)` on a list of strings. -/
def joinSep (sep : String) : List String → String
  | [] => ""
  | [s] => s
  | s :: rest => s ++ sep ++ joinSep sep rest

/-- Checks every element is a Python `str`; `str.join` raises `TypeError`
otherwise. -/
def asStrList : List Json → Except Unit (List String)
  | [] => .ok []
  | .str s :: rest => (asStrList rest).map (fun r => s :: r)
  | _ :: _ => .error ()

/-- Python `sep.join(xs)` on a list of arbitrary values: joins when all are
strings, raises (`.error`) otherwise. -/
def pyJoin (sep : String) (xs : List Json) : Except Unit String :=
  (asStrList xs).map (joinSep sep)

/-- The controller state touched by `get_weather`: the text shown by
`result_var`/`result_label`, the image configured on `icon_label` (`none`
models `image=""`), and the `self.icon_image` reference. -/
structure UIState where
  result_text : String
  icon_shown : Option String
  icon_image : Option String


/-- Outcome of the icon step for a given icon URL: `fetchFail` is a
`requests.RequestException` from `requests.get`/`raise_for_status` (caught);
`decodeFail` is a failure of `tk.PhotoImage` on the fetched bytes (a
`tk.TclError`, not a `requests.RequestException`); `ok img` is a fetched and
decoded image. -/
inductive IconResult where
  | fetchFail
  | decodeFail
  | ok (img : String)


/-- The network environment: the outcome of the primary GET (`.error exc` is
a `requests.RequestException` whose `str()` is `exc`, covering transport
errors, `raise_for_status` on non-2xx, and `response.json()` on a non-JSON
body; `.ok data` is the parsed body), and the icon-step outcome per URL. -/
structure Env where
  primary : Except String Json
  icon : String → IconResult

/-- An outbound HTTP GET recorded with its query parameters. -/
structure Request where
  url : String
  params : List (String × String)


/-- Observable outcome of one `get_weather` call: final controller state,
the HTTP requests issued in order, the modal dialog shown (title, message)
if any, and whether an uncaught exception propagated out of the handler. -/
structure GWResult where
  state : UIState
  calls : List Request
  dialog : Option (String × String)
  raised : Bool


/-- The fields read from the response body (lines 282-295 of `src/main.py`),
after the `or \x7b\x7d` normalisation of `condition` and the
`or ""` normalisation of the icon path. -/
structure Extracted where
  name : Json
  region : Json
  country : Json
  temp_c : Json
  feelslike_c : Json
  humidity : Json
  wind_kph : Json
  cond_text : Json
  icon_path : String


/-- Field extraction from the parsed body, in source order; `.error ()` is
an uncaught exception (an `AttributeError` from `.get` on a non-dict, or
from `.startswith` on a non-string icon value). -/
def extractFields (data : Json) (location : String) : Except Unit Extracted := do
  let location_data ← pyGet data "location" (.obj [])
  let current ← pyGet data "current" (.obj [])
  let condraw ← pyGet current "condition" (.obj [])
  let condition := if condraw.truthy then condraw else Json.obj []
  let name ← pyGet location_data "name" (.str location)
  let region ← pyGet location_data "region" (.str "")
  let country ← pyGet location_data "country" (.str "")
  let temp_c ← pyGet current "temp_c" (.str "?")
  let feelslike_c ← pyGet current "feelslike_c" (.str "?")
  let humidity ← pyGet current "humidity" (.str "?")
  let wind_kph ← pyGet current "wind_kph" (.str "?")
  let cond_text ← pyGet condition "text" (.str "Unknown")
  let icon_raw ← pyGet condition "icon" (.str "")
  match (if icon_raw.truthy then icon_raw else Json.str "") with
  | .str p => .ok ⟨name, region, country, temp_c, feelslike_c, humidity, wind_kph, cond_text, p⟩
  | _ => .error ()

/-- Python `s.strip()`: the string with leading and trailing whitespace
removed (whitespace per `Char.isWhitespace`). -/
def pyStrip (s : String) : String :=
  String.mk (((s.data.dropWhile Char.isWhitespace).reverse.dropWhile Char.isWhitespace).reverse)

/-- Python `s.startswith(pre)`, computed on the character lists. -/
def pyStartsWith (s pre : String) : Bool :=
  pre.data.isPrefixOf s.data

/-- `icon_url = f"https:\x7bicon_path\x7d" if icon_path.startswith("//") else icon_path`. -/
def iconUrlOf (icon_path : String) : String :=
  if pyStartsWith icon_path "//" then "https:" ++ icon_path else icon_path

def API_URL : String := "https://api.weatherapi.com/v1/current.json"

def missingKeyMsg : String :=
  "Missing API key. Add your key to api_config.py (kept out of git)."

def validationDialog : String × String :=
  ("Enter a location", "Please type a city or ZIP/postal code.")

/-- The five display lines built from the extracted fields (lines 307-314):
the location line joins the truthy ones of name/region/country with ", ",
falling back to the typed location when that join is empty; the remaining
f-strings render each field with `str()`. Raises when `str.join` meets a
non-string. -/
def detailsText (location : String) (f : Extracted) : Except Unit String := do
  let location_line ← pyJoin ", " (List.filter Json.truthy [f.name, f.region, f.country])
  .ok (joinSep "\n"
    [ (if location_line = "" then location else location_line),
      "Condition: " ++ pyStr f.cond_text,
      "Temperature: " ++ pyStr f.temp_c ++ "°C (feels like " ++ pyStr f.feelslike_c ++ "°C)",
      "Humidity: " ++ pyStr f.humidity ++ "%",
      "Wind: " ++ pyStr f.wind_kph ++ " kph" ])

/-- Embedding of `WeatherApp.get_weather` (lines 256-315 of `src/main.py`).
`entry_text` is the content of the location entry, `s0` the controller state
on entry. The icon `try` block catches only `requests.RequestException`, so
a `decodeFail` propagates; extraction and join failures also propagate. -/
def get_weather (api_key : String) (env : Env) (entry_text : String) (s0 : UIState) : GWResult :=
  let location := pyStrip entry_text
  if location = "" then
    { state := s0, calls := [], dialog := some validationDialog, raised := false }
  else if api_key = "" then
    { state := { s0 with result_text := missingKeyMsg }, calls := [], dialog := none, raised := false }
  else
    let primaryReq : Request := { url := API_URL, params := [("key", api_key), ("q", location), ("aqi", "no")] }
    match env.primary with
    | .error exc =>
      let sErr : UIState :=
        { result_text := "Error fetching weather data: " ++ exc, icon_shown := none, icon_image := none }
      { state := sErr, calls := [primaryReq], dialog := none, raised := false }
    | .ok data =>
      let s1 : UIState := { s0 with icon_image := none, icon_shown := none }
      match extractFields data location with
      | .error _ => { state := s1, calls := [primaryReq], dialog := none, raised := true }
      | .ok f =>
        let icon_url := iconUrlOf f.icon_path
        let step : UIState × List Request × Bool :=
          if icon_url = "" then (s1, [primaryReq], false)
          else
            match env.icon icon_url with
            | .fetchFail =>
              ({ s1 with icon_image := none, icon_shown := none },
               [primaryReq, { url := icon_url, params := [] }], false)
            | .decodeFail =>
              (s1, [primaryReq, { url := icon_url, params := [] }], true)
            | .ok img =>
              ({ s1 with icon_image := some img, icon_shown := some img },
               [primaryReq, { url := icon_url, params := [] }], false)
        if step.2.2 then
          { state := step.1, calls := step.2.1, dialog := none, raised := true }
        else
          match detailsText location f with
          | .error _ => { state := step.1, calls := step.2.1, dialog := none, raised := true }
          | .ok details =>
            { state := { step.1 with result_text := details }, calls := step.2.1, dialog := none, raised := false }

/-- Regrouping lemma: two adjacent literal segments of an append chain can
be fused once their concatenation is known. -/
theorem merge_lit (l1 l2 m : String) (h : l1 ++ l2 = m) (X : String) :
    l1 ++ (l2 ++ X) = m ++ X := by
  rw [← String.append_assoc, h]

/-- An append whose left part is non-empty is non-empty. -/
theorem append_ne_empty_left {a : String} (b : String) (h : a ≠ "") : a ++ b ≠ "" := by
  intro hc
  apply h
  have hd := congrArg String.data hc
  simp [String.data_append] at hd
  exact String.ext (by simp [hd.1])

/-- The icon URL computed from a non-empty icon path is non-empty. -/
theorem iconUrlOf_ne_empty {p : String} (h : p ≠ "") : iconUrlOf p ≠ "" := by
  unfold iconUrlOf
  split
  · exact append_ne_empty_left p (by decide)
  · exact h

/-- A response body with every displayed field present and no icon path. -/
def bodyAll (nm rg ct tx t fl hu w : String) : Json :=
  .obj [ ("location", .obj [("name", .str nm), ("region", .str rg), ("country", .str ct)]),
         ("current", .obj [ ("temp_c", .num t), ("feelslike_c", .num fl), ("humidity", .num hu),
                            ("wind_kph", .num w), ("condition", .obj [("text", .str tx)]) ]) ]

/-- A response body with every displayed field present and an icon path. -/
def bodyIcon (nm rg ct tx t fl hu w p : String) : Json :=
  .obj [ ("location", .obj [("name", .str nm), ("region", .str rg), ("country", .str ct)]),
         ("current", .obj [ ("temp_c", .num t), ("feelslike_c", .num fl), ("humidity", .num hu),
                            ("wind_kph", .num w),
                            ("condition", .obj [("text", .str tx), ("icon", .str p)]) ]) ]

/-- A sample controller state with a previously displayed result and icon. -/
def sInit : UIState :=
  { result_text := "Enter a location to begin.", icon_shown := some "OLD", icon_image := some "OLD" }

/-- A sample environment whose primary request fails. -/
def envErr : Env := { primary := .error "timeout", icon := fun _ => .fetchFail }

/-- Claim C2: for every input string that is empty or consists only of
whitespace, `get_weather` shows the modal validation dialog, performs no
network call, and leaves the controller state (result text and icon)
unchanged. -/
theorem claim_C2 (api_key : String) (env : Env) (entry_text : String) (s0 : UIState)
    (h : pyStrip entry_text = "") :
    get_weather api_key env entry_text s0 =
      { state := s0, calls := [], dialog := some validationDialog, raised := false } := by
  simp [get_weather, h]

/-- Witness for C2 at the whitespace-only input "  ". -/
theorem claim_C2_witness :
    (pyStrip "  " = "") ∧
    get_weather "k" envErr "  " sInit =
      { state := sInit, calls := [], dialog := some validationDialog, raised := false } :=
  ⟨by decide, claim_C2 "k" envErr "  " sInit (by decide)⟩

/-- Claim C3: for every non-empty trimmed input, when the configured API key
is the empty string, `get_weather` issues no HTTP request and sets the
result text to the fixed guidance message about the missing key. -/
theorem claim_C3 (env : Env) (entry_text : String) (s0 : UIState)
    (h : pyStrip entry_text ≠ "") :
    get_weather "" env entry_text s0 =
      { state := { s0 with result_text := missingKeyMsg }, calls := [], dialog := none,
        raised := false } ∧
    missingKeyMsg = "Missing API key. Add your key to api_config.py (kept out of git)." := by
  refine ⟨?_, rfl⟩
  simp [get_weather, h]

/-- Witness for C3 at the input "Paris". -/
theorem claim_C3_witness :
    (pyStrip "Paris" ≠ "") ∧
    (get_weather "" envErr "Paris" sInit =
      { state := { sInit with result_text := missingKeyMsg }, calls := [], dialog := none,
        raised := false } ∧
     missingKeyMsg = "Missing API key. Add your key to api_config.py (kept out of git).") :=
  ⟨by decide, claim_C3 envErr "Paris" sInit (by decide)⟩

/-- Claim C4: for every transport or HTTP failure of the primary request
(the environment reports a `requests.RequestException`, covering non-2xx
statuses and non-JSON bodies), `get_weather` sets the result text to a
string starting with "Error fetching weather data:" that contains the
exception detail, clears any previously displayed icon, and does not raise
further. -/
theorem claim_C4 (api_key : String) (env : Env) (entry_text : String) (s0 : UIState) (exc : String)
    (hkey : api_key ≠ "") (hloc : pyStrip entry_text ≠ "") (hp : env.primary = .error exc) :
    get_weather api_key env entry_text s0 =
      { state := { result_text := "Error fetching weather data: " ++ exc, icon_shown := none,
                   icon_image := none },
        calls := [{ url := API_URL, params := [("key", api_key), ("q", pyStrip entry_text), ("aqi", "no")] }],
        dialog := none, raised := false } ∧
    "Error fetching weather data: " ++ exc = "Error fetching weather data:" ++ (" " ++ exc) := by
  have hlit : ("Error fetching weather data:" ++ " " : String) = "Error fetching weather data: " := by decide
  refine ⟨?_, by rw [← String.append_assoc, hlit]⟩
  simp [get_weather, hloc, hkey, hp]

/-- Witness for C4 at a timeout failure. -/
theorem claim_C4_witness :
    ("k" ≠ "") ∧ (pyStrip "Paris" ≠ "") ∧ (envErr.primary = .error "timeout") ∧
    (get_weather "k" envErr "Paris" sInit =
      { state := { result_text := "Error fetching weather data: timeout", icon_shown := none,
                   icon_image := none },
        calls := [{ url := API_URL, params := [("key", "k"), ("q", pyStrip "Paris"), ("aqi", "no")] }],
        dialog := none, raised := false } ∧
     "Error fetching weather data: " ++ "timeout" = "Error fetching weather data:" ++ (" " ++ "timeout")) :=
  ⟨by decide, by decide, rfl, claim_C4 "k" envErr "Paris" sInit "timeout" (by decide) (by decide) rfl⟩

/-- Claim C1: for every primary response whose JSON body contains all
fields (location name, region, country, condition text, temp_c,
feelslike_c, humidity, wind_kph) with non-empty values, `get_weather` sets
the result text to exactly the five-line string
"name, region, country\nCondition: text\nTemperature: temp_c°C (feels like
feelslike_c°C)\nHumidity: humidity%\nWind: wind_kph kph", replacing the
previous display text wholesale. -/
theorem claim_C1 (api_key entry_text : String) (s0 : UIState) (icon : String → IconResult)
    (nm rg ct tx t fl hu w : String)
    (hkey : api_key ≠ "") (hloc : pyStrip entry_text ≠ "")
    (hnm : nm ≠ "") (hrg : rg ≠ "") (hct : ct ≠ "") (htx : tx ≠ "") :
    get_weather api_key { primary := .ok (bodyAll nm rg ct tx t fl hu w), icon := icon }
        entry_text s0 =
      { state := { result_text := nm ++ ", " ++ rg ++ ", " ++ ct ++ "\nCondition: " ++ tx ++
                     "\nTemperature: " ++ t ++ "°C (feels like " ++ fl ++ "°C)\nHumidity: " ++ hu ++
                     "%\nWind: " ++ w ++ " kph",
                   icon_shown := none, icon_image := none },
        calls := [{ url := API_URL, params := [("key", api_key), ("q", pyStrip entry_text), ("aqi", "no")] }],
        dialog := none, raised := false } := by
  have hline : nm ++ (", " ++ (rg ++ (", " ++ ct))) ≠ "" :=
    append_ne_empty_left _ hnm
  simp +decide [get_weather, hkey, hloc, bodyAll, extractFields, pyGet, Json.truthy, detailsText,
        pyJoin, asStrList, joinSep, pyStr, iconUrlOf, hnm, hrg, hct, htx, hline,
        String.append_assoc, List.lookup, Option.getD, Bind.bind, Except.bind, Except.map, pure,
        Except.pure, pyRepr,
        merge_lit "\n" "Condition: " "\nCondition: " (by decide),
        merge_lit "\n" "Temperature: " "\nTemperature: " (by decide),
        merge_lit "\n" "Humidity: " "\nHumidity: " (by decide),
        merge_lit "\n" "Wind: " "\nWind: " (by decide),
        merge_lit "°C)" "\nHumidity: " "°C)\nHumidity: " (by decide),
        merge_lit "%" "\nWind: " "%\nWind: " (by decide),
        merge_lit "°C)\n" "Humidity: " "°C)\nHumidity: " (by decide),
        merge_lit "%\n" "Wind: " "%\nWind: " (by decide)]

/-- Witness for C1 at a fully-populated concrete response. -/
theorem claim_C1_witness :
    ("k" : String) ≠ "" ∧ pyStrip "Paris" ≠ "" ∧ ("Paris" : String) ≠ "" ∧
    ("Ile-de-France" : String) ≠ "" ∧ ("France" : String) ≠ "" ∧ ("Sunny" : String) ≠ "" ∧
    get_weather "k"
        { primary := .ok (bodyAll "Paris" "Ile-de-France" "France" "Sunny" "21.0" "19.5" "60" "12.3"),
          icon := fun _ => .fetchFail } "Paris" sInit =
      { state := { result_text := "Paris" ++ ", " ++ "Ile-de-France" ++ ", " ++ "France" ++
                     "\nCondition: " ++ "Sunny" ++ "\nTemperature: " ++ "21.0" ++
                     "°C (feels like " ++ "19.5" ++ "°C)\nHumidity: " ++ "60" ++ "%\nWind: " ++
                     "12.3" ++ " kph",
                   icon_shown := none, icon_image := none },
        calls := [{ url := API_URL, params := [("key", "k"), ("q", pyStrip "Paris"), ("aqi", "no")] }],
        dialog := none, raised := false } :=
  ⟨by decide, by decide, by decide, by decide, by decide, by decide,
   claim_C1 "k" "Paris" sInit (fun _ => .fetchFail) "Paris" "Ile-de-France" "France" "Sunny"
     "21.0" "19.5" "60" "12.3" (by decide) (by decide) (by decide) (by decide) (by decide) (by decide)⟩

/-- Claim C5: for every successful primary response whose icon fetch (the
secondary HTTP request) fails with a `requests.RequestException`,
`get_weather` still sets the fully populated five-line result text,
displays no icon, and surfaces no error for the icon failure (no dialog, no
exception). -/
theorem claim_C5 (api_key entry_text : String) (s0 : UIState) (icon : String → IconResult)
    (nm rg ct tx t fl hu w p : String)
    (hkey : api_key ≠ "") (hloc : pyStrip entry_text ≠ "")
    (hnm : nm ≠ "") (hrg : rg ≠ "") (hct : ct ≠ "") (htx : tx ≠ "") (hp : p ≠ "")
    (hicon : icon (iconUrlOf p) = .fetchFail) :
    get_weather api_key { primary := .ok (bodyIcon nm rg ct tx t fl hu w p), icon := icon }
        entry_text s0 =
      { state := { result_text := nm ++ ", " ++ rg ++ ", " ++ ct ++ "\nCondition: " ++ tx ++
                     "\nTemperature: " ++ t ++ "°C (feels like " ++ fl ++ "°C)\nHumidity: " ++ hu ++
                     "%\nWind: " ++ w ++ " kph",
                   icon_shown := none, icon_image := none },
        calls := [{ url := API_URL, params := [("key", api_key), ("q", pyStrip entry_text), ("aqi", "no")] },
                  { url := iconUrlOf p, params := [] }],
        dialog := none, raised := false } := by
  have hline : nm ++ (", " ++ (rg ++ (", " ++ ct))) ≠ "" :=
    append_ne_empty_left _ hnm
  have hurl : iconUrlOf p ≠ "" := iconUrlOf_ne_empty hp
  simp +decide [get_weather, hkey, hloc, bodyIcon, extractFields, pyGet, Json.truthy, detailsText,
        pyJoin, asStrList, joinSep, pyStr, hp, hicon, hurl, hnm, hrg, hct, htx, hline,
        String.append_assoc, List.lookup, Option.getD, Bind.bind, Except.bind, Except.map, pure,
        Except.pure, pyRepr,
        merge_lit "\n" "Condition: " "\nCondition: " (by decide),
        merge_lit "\n" "Temperature: " "\nTemperature: " (by decide),
        merge_lit "\n" "Humidity: " "\nHumidity: " (by decide),
        merge_lit "\n" "Wind: " "\nWind: " (by decide),
        merge_lit "°C)" "\nHumidity: " "°C)\nHumidity: " (by decide),
        merge_lit "%" "\nWind: " "%\nWind: " (by decide),
        merge_lit "°C)\n" "Humidity: " "°C)\nHumidity: " (by decide),
        merge_lit "%\n" "Wind: " "%\nWind: " (by decide)]

/-- Witness for C5 at a concrete response with a protocol-relative icon
path whose fetch fails. -/
theorem claim_C5_witness :
    ("k" : String) ≠ "" ∧ pyStrip "Paris" ≠ "" ∧ ("Paris" : String) ≠ "" ∧
    ("Ile-de-France" : String) ≠ "" ∧ ("France" : String) ≠ "" ∧ ("Sunny" : String) ≠ "" ∧
    ("//cdn.weatherapi.com/x.png" : String) ≠ "" ∧
    ((fun _ => IconResult.fetchFail : String → IconResult) (iconUrlOf "//cdn.weatherapi.com/x.png") =
      .fetchFail) ∧
    get_weather "k"
        { primary := .ok (bodyIcon "Paris" "Ile-de-France" "France" "Sunny" "21.0" "19.5" "60"
            "12.3" "//cdn.weatherapi.com/x.png"),
          icon := fun _ => .fetchFail } "Paris" sInit =
      { state := { result_text := "Paris" ++ ", " ++ "Ile-de-France" ++ ", " ++ "France" ++
                     "\nCondition: " ++ "Sunny" ++ "\nTemperature: " ++ "21.0" ++
                     "°C (feels like " ++ "19.5" ++ "°C)\nHumidity: " ++ "60" ++ "%\nWind: " ++
                     "12.3" ++ " kph",
                   icon_shown := none, icon_image := none },
        calls := [{ url := API_URL, params := [("key", "k"), ("q", pyStrip "Paris"), ("aqi", "no")] },
                  { url := iconUrlOf "//cdn.weatherapi.com/x.png", params := [] }],
        dialog := none, raised := false } :=
  ⟨by decide, by decide, by decide, by decide, by decide, by decide, by decide, rfl,
   claim_C5 "k" "Paris" sInit (fun _ => .fetchFail) "Paris" "Ile-de-France" "France" "Sunny"
     "21.0" "19.5" "60" "12.3" "//cdn.weatherapi.com/x.png" (by decide) (by decide) (by decide)
     (by decide) (by decide) (by decide) (by decide) rfl⟩

/-- A sample environment with a successful primary response carrying an
icon path, whose icon bytes fetch succeeds but whose decode fails. -/
def envDecode : Env :=
  { primary := .ok (bodyIcon "Paris" "Ile-de-France" "France" "Sunny" "21.0" "19.5" "60" "12.3"
      "//cdn.weatherapi.com/x.png"),
    icon := fun _ => .decodeFail }

/-- Counterexample to C7 as stated: when decoding the fetched icon bytes to
an in-memory image fails (`tk.PhotoImage` raises, which is not a
`requests.RequestException`), the exception propagates out of `get_weather`
and the result text is never set, contradicting "completes normally (still
setting the result text)". -/
theorem claim_C7_cex :
    (get_weather "k" envDecode "Paris" sInit).raised = true ∧
    (get_weather "k" envDecode "Paris" sInit).state.result_text = "Enter a location to begin." := by
  exact ⟨by decide, by decide⟩

/-- Claim C7 (amended): a failure fetching the icon bytes (a
`requests.RequestException`) is caught: the icon is silently cleared, no
dialog is shown, and `get_weather` completes normally, still setting the
result text. A failure decoding the bytes to an in-memory image, however,
is not caught: the exception propagates, the icon stays cleared (it was
cleared beforehand) and the result text is left unchanged. -/
theorem claim_C7 (api_key entry_text : String) (s0 : UIState) (icon : String → IconResult)
    (nm rg ct tx t fl hu w p : String)
    (hkey : api_key ≠ "") (hloc : pyStrip entry_text ≠ "")
    (hnm : nm ≠ "") (hrg : rg ≠ "") (hct : ct ≠ "") (htx : tx ≠ "") (hp : p ≠ "") :
    (icon (iconUrlOf p) = .fetchFail →
      get_weather api_key { primary := .ok (bodyIcon nm rg ct tx t fl hu w p), icon := icon }
          entry_text s0 =
        { state := { result_text := nm ++ ", " ++ rg ++ ", " ++ ct ++ "\nCondition: " ++ tx ++
                       "\nTemperature: " ++ t ++ "°C (feels like " ++ fl ++ "°C)\nHumidity: " ++ hu ++
                       "%\nWind: " ++ w ++ " kph",
                     icon_shown := none, icon_image := none },
          calls := [{ url := API_URL, params := [("key", api_key), ("q", pyStrip entry_text), ("aqi", "no")] },
                    { url := iconUrlOf p, params := [] }],
          dialog := none, raised := false }) ∧
    (icon (iconUrlOf p) = .decodeFail →
      get_weather api_key { primary := .ok (bodyIcon nm rg ct tx t fl hu w p), icon := icon }
          entry_text s0 =
        { state := { result_text := s0.result_text, icon_shown := none, icon_image := none },
          calls := [{ url := API_URL, params := [("key", api_key), ("q", pyStrip entry_text), ("aqi", "no")] },
                    { url := iconUrlOf p, params := [] }],
          dialog := none, raised := true }) := by
  have hurl : iconUrlOf p ≠ "" := iconUrlOf_ne_empty hp
  have hline : nm ++ (", " ++ (rg ++ (", " ++ ct))) ≠ "" :=
    append_ne_empty_left _ hnm
  constructor
  · intro hicon
    simp +decide [get_weather, hkey, hloc, bodyIcon, extractFields, pyGet, Json.truthy, detailsText,
          pyJoin, asStrList, joinSep, pyStr, hp, hicon, hurl, hnm, hrg, hct, htx, hline,
          String.append_assoc, List.lookup, Option.getD, Bind.bind, Except.bind, Except.map, pure,
          Except.pure, pyRepr,
          merge_lit "\n" "Condition: " "\nCondition: " (by decide),
          merge_lit "\n" "Temperature: " "\nTemperature: " (by decide),
          merge_lit "\n" "Humidity: " "\nHumidity: " (by decide),
          merge_lit "\n" "Wind: " "\nWind: " (by decide),
          merge_lit "°C)" "\nHumidity: " "°C)\nHumidity: " (by decide),
          merge_lit "%" "\nWind: " "%\nWind: " (by decide),
          merge_lit "°C)\n" "Humidity: " "°C)\nHumidity: " (by decide),
          merge_lit "%\n" "Wind: " "%\nWind: " (by decide)]
  · intro hicon
    simp +decide [get_weather, hkey, hloc, bodyIcon, extractFields, pyGet, Json.truthy, hp, hicon,
          hurl, String.append_assoc, List.lookup, Option.getD, Bind.bind, Except.bind, Except.map,
          pure, Except.pure]

/-- Witness for the amended C7: at a concrete response with an icon path
and an environment whose icon decode fails, the exception propagates and
the result text is untouched. -/
theorem claim_C7_witness :
    ("k" : String) ≠ "" ∧ pyStrip "Paris" ≠ "" ∧ ("Paris" : String) ≠ "" ∧
    ("Ile-de-France" : String) ≠ "" ∧ ("France" : String) ≠ "" ∧ ("Sunny" : String) ≠ "" ∧
    ("//cdn.weatherapi.com/x.png" : String) ≠ "" ∧
    get_weather "k"
        { primary := .ok (bodyIcon "Paris" "Ile-de-France" "France" "Sunny" "21.0" "19.5" "60"
            "12.3" "//cdn.weatherapi.com/x.png"),
          icon := fun _ => .decodeFail } "Paris" sInit =
      { state := { result_text := sInit.result_text, icon_shown := none, icon_image := none },
        calls := [{ url := API_URL, params := [("key", "k"), ("q", pyStrip "Paris"), ("aqi", "no")] },
                  { url := iconUrlOf "//cdn.weatherapi.com/x.png", params := [] }],
        dialog := none, raised := true } :=
  ⟨by decide, by decide, by decide, by decide, by decide, by decide, by decide,
   (claim_C7 "k" "Paris" sInit (fun _ => .decodeFail) "Paris" "Ile-de-France" "France" "Sunny"
     "21.0" "19.5" "60" "12.3" "//cdn.weatherapi.com/x.png" (by decide) (by decide) (by decide)
     (by decide) (by decide) (by decide) (by decide)).2 rfl⟩

/-- Counterexample to C6 as stated: on a response whose `location` object
is empty, the absent location name is extracted as the typed location
("Paris"), and the absent region as the empty string — neither is the
claimed safe fallback "?" or "Unknown" — and the typed location surfaces as
the first line of the result text. -/
theorem claim_C6_cex :
    (extractFields (Json.obj [("location", Json.obj []), ("current", Json.obj [])]) "Paris").map
        (fun f => pyStr f.name) = .ok "Paris" ∧
    (extractFields (Json.obj [("location", Json.obj []), ("current", Json.obj [])]) "Paris").map
        (fun f => pyStr f.region) = .ok "" ∧
    ("Paris" : String) ≠ "?" ∧ ("Paris" : String) ≠ "Unknown" ∧
    ("" : String) ≠ "?" ∧ ("" : String) ≠ "Unknown" ∧
    (get_weather "k"
        { primary := .ok (Json.obj [("location", Json.obj []), ("current", Json.obj [])]),
          icon := fun _ => .fetchFail } "Paris" sInit).state.result_text =
      "Paris\nCondition: Unknown\nTemperature: ?°C (feels like ?°C)\nHumidity: ?%\nWind: ? kph" :=
  ⟨rfl, rfl, by decide, by decide, by decide, by decide, by decide⟩

/-- Claim C6 (amended): for every successful primary response, absent
fields are extracted with these fallbacks: temperature, feels-like
temperature, humidity and wind speed fall back to "?", condition text to
"Unknown", the location name to the typed (trimmed) location, and region,
country and icon path to the empty string. -/
theorem claim_C6 (location : String) (fsL fsC : List (String × Json))
    (h1 : fsL.lookup "name" = none) (h2 : fsL.lookup "region" = none)
    (h3 : fsL.lookup "country" = none) (h4 : fsC.lookup "temp_c" = none)
    (h5 : fsC.lookup "feelslike_c" = none) (h6 : fsC.lookup "humidity" = none)
    (h7 : fsC.lookup "wind_kph" = none) (h8 : fsC.lookup "condition" = none) :
    extractFields (Json.obj [("location", Json.obj fsL), ("current", Json.obj fsC)]) location =
      .ok { name := .str location, region := .str "", country := .str "", temp_c := .str "?",
            feelslike_c := .str "?", humidity := .str "?", wind_kph := .str "?",
            cond_text := .str "Unknown", icon_path := "" } := by
  simp +decide [extractFields, pyGet, Json.truthy, List.lookup, Option.getD, Bind.bind, Except.bind,
    h1, h2, h3, h4, h5, h6, h7, h8]

/-- Witness for the amended C6 at empty location and current objects. -/
theorem claim_C6_witness :
    (([] : List (String × Json)).lookup "name" = none) ∧
    (([] : List (String × Json)).lookup "condition" = none) ∧
    extractFields (Json.obj [("location", Json.obj []), ("current", Json.obj [])]) "Lima" =
      .ok { name := .str "Lima", region := .str "", country := .str "", temp_c := .str "?",
            feelslike_c := .str "?", humidity := .str "?", wind_kph := .str "?",
            cond_text := .str "Unknown", icon_path := "" } :=
  ⟨rfl, rfl, claim_C6 "Lima" [] [] rfl rfl rfl rfl rfl rfl rfl rfl⟩

/-- Claim C8: for every successful primary response without a `condition`
object — whether the key is absent or its value is JSON null — the result
text's condition line is exactly "Condition: Unknown" and `get_weather`
does not raise. -/
theorem claim_C8 (api_key entry_text : String) (s0 : UIState) (icon : String → IconResult)
    (nm t fl hu w : String)
    (hkey : api_key ≠ "") (hloc : pyStrip entry_text ≠ "") (hnm : nm ≠ "") :
    (get_weather api_key
        { primary := .ok (.obj [ ("location", .obj [("name", .str nm)]),
            ("current", .obj [ ("temp_c", .num t), ("feelslike_c", .num fl),
                               ("humidity", .num hu), ("wind_kph", .num w) ]) ]),
          icon := icon } entry_text s0 =
      { state := { result_text := nm ++ "\nCondition: Unknown\nTemperature: " ++ t ++
                     "°C (feels like " ++ fl ++ "°C)\nHumidity: " ++ hu ++ "%\nWind: " ++ w ++ " kph",
                   icon_shown := none, icon_image := none },
        calls := [{ url := API_URL, params := [("key", api_key), ("q", pyStrip entry_text), ("aqi", "no")] }],
        dialog := none, raised := false }) ∧
    (get_weather api_key
        { primary := .ok (.obj [ ("location", .obj [("name", .str nm)]),
            ("current", .obj [ ("temp_c", .num t), ("feelslike_c", .num fl),
                               ("humidity", .num hu), ("wind_kph", .num w),
                               ("condition", Json.null) ]) ]),
          icon := icon } entry_text s0 =
      { state := { result_text := nm ++ "\nCondition: Unknown\nTemperature: " ++ t ++
                     "°C (feels like " ++ fl ++ "°C)\nHumidity: " ++ hu ++ "%\nWind: " ++ w ++ " kph",
                   icon_shown := none, icon_image := none },
        calls := [{ url := API_URL, params := [("key", api_key), ("q", pyStrip entry_text), ("aqi", "no")] }],
        dialog := none, raised := false }) := by
  refine ⟨?_, ?_⟩ <;>
  simp +decide [get_weather, hkey, hloc, extractFields, pyGet, Json.truthy, detailsText,
        pyJoin, asStrList, joinSep, pyStr, iconUrlOf, pyStartsWith, hnm,
        String.append_assoc, List.lookup, Option.getD, Bind.bind, Except.bind, Except.map, pure,
        Except.pure, pyRepr,
        merge_lit "\n" "Condition: " "\nCondition: " (by decide),
        merge_lit "\nCondition: " "Unknown" "\nCondition: Unknown" (by decide),
        merge_lit "\nCondition: Unknown" "\n" "\nCondition: Unknown\n" (by decide),
        merge_lit "\nCondition: Unknown\n" "Temperature: " "\nCondition: Unknown\nTemperature: " (by decide),
        merge_lit "\n" "Condition: Unknown\n" "\nCondition: Unknown\n" (by decide),
        merge_lit "Condition: Unknown\n" "Temperature: " "Condition: Unknown\nTemperature: " (by decide),
        merge_lit "\n" "Condition: Unknown\nTemperature: " "\nCondition: Unknown\nTemperature: " (by decide),
        merge_lit "°C)" "\nHumidity: " "°C)\nHumidity: " (by decide),
        merge_lit "%" "\nWind: " "%\nWind: " (by decide),
        merge_lit "°C)\n" "Humidity: " "°C)\nHumidity: " (by decide),
        merge_lit "%\n" "Wind: " "%\nWind: " (by decide)]

/-- Witness for C8 at a concrete response with no condition object. -/
theorem claim_C8_witness :
    ("k" : String) ≠ "" ∧ pyStrip "Oslo" ≠ "" ∧ ("Oslo" : String) ≠ "" ∧
    (get_weather "k"
        { primary := .ok (.obj [ ("location", .obj [("name", .str "Oslo")]),
            ("current", .obj [ ("temp_c", .num "3.0"), ("feelslike_c", .num "1.0"),
                               ("humidity", .num "80"), ("wind_kph", .num "9.0") ]) ]),
          icon := fun _ => .fetchFail } "Oslo" sInit =
      { state := { result_text := "Oslo" ++ "\nCondition: Unknown\nTemperature: " ++ "3.0" ++
                     "°C (feels like " ++ "1.0" ++ "°C)\nHumidity: " ++ "80" ++ "%\nWind: " ++
                     "9.0" ++ " kph",
                   icon_shown := none, icon_image := none },
        calls := [{ url := API_URL, params := [("key", "k"), ("q", pyStrip "Oslo"), ("aqi", "no")] }],
        dialog := none, raised := false }) :=
  ⟨by decide, by decide, by decide,
   (claim_C8 "k" "Oslo" sInit (fun _ => .fetchFail) "Oslo" "3.0" "1.0" "80" "9.0"
     (by decide) (by decide) (by decide)).1⟩

/-- Claim C9: for every successful primary response whose location object
lacks "name", the extracted name falls back to the user-typed (trimmed)
location string; in particular, when name, region and country are all
absent or empty, the first line of the result text equals the trimmed
query, which is never empty. -/
theorem claim_C9 (api_key entry_text : String) (s0 : UIState) (icon : String → IconResult)
    (fsL : List (String × Json)) (tx t fl hu w : String)
    (hkey : api_key ≠ "") (hloc : pyStrip entry_text ≠ "")
    (hname : fsL.lookup "name" = none) :
    (extractFields (Json.obj [ ("location", Json.obj fsL),
        ("current", Json.obj [ ("temp_c", .num t), ("feelslike_c", .num fl),
          ("humidity", .num hu), ("wind_kph", .num w),
          ("condition", .obj [("text", .str tx)]) ]) ]) (pyStrip entry_text)).map
        (fun f => f.name) = .ok (.str (pyStrip entry_text)) ∧
    ((fsL.lookup "region" = none ∨ fsL.lookup "region" = some (.str "")) →
     (fsL.lookup "country" = none ∨ fsL.lookup "country" = some (.str "")) →
     (get_weather api_key
        { primary := .ok (Json.obj [ ("location", Json.obj fsL),
            ("current", Json.obj [ ("temp_c", .num t), ("feelslike_c", .num fl),
              ("humidity", .num hu), ("wind_kph", .num w),
              ("condition", .obj [("text", .str tx)]) ]) ]),
          icon := icon } entry_text s0 =
       { state := { result_text := pyStrip entry_text ++ "\nCondition: " ++ tx ++
                      "\nTemperature: " ++ t ++ "°C (feels like " ++ fl ++ "°C)\nHumidity: " ++ hu ++
                      "%\nWind: " ++ w ++ " kph",
                    icon_shown := none, icon_image := none },
         calls := [{ url := API_URL, params := [("key", api_key), ("q", pyStrip entry_text), ("aqi", "no")] }],
         dialog := none, raised := false }) ∧
     pyStrip entry_text ≠ "") := by
  constructor
  · simp +decide [extractFields, pyGet, Json.truthy, List.lookup, Option.getD, Bind.bind,
      Except.bind, Except.map, hname]
  · intro hrg hct
    refine ⟨?_, hloc⟩
    rcases hrg with hrg | hrg <;> rcases hct with hct | hct <;>
    simp +decide [get_weather, hkey, hloc, extractFields, pyGet, Json.truthy, detailsText,
          pyJoin, asStrList, joinSep, pyStr, iconUrlOf, pyStartsWith, hname, hrg, hct,
          String.append_assoc, List.lookup, Option.getD, Bind.bind, Except.bind, Except.map, pure,
          Except.pure, pyRepr,
          merge_lit "\n" "Condition: " "\nCondition: " (by decide),
          merge_lit "\n" "Temperature: " "\nTemperature: " (by decide),
          merge_lit "\n" "Humidity: " "\nHumidity: " (by decide),
          merge_lit "\n" "Wind: " "\nWind: " (by decide),
          merge_lit "°C)" "\nHumidity: " "°C)\nHumidity: " (by decide),
          merge_lit "%" "\nWind: " "%\nWind: " (by decide),
          merge_lit "°C)\n" "Humidity: " "°C)\nHumidity: " (by decide),
          merge_lit "%\n" "Wind: " "%\nWind: " (by decide)]

/-- Witness for C9 at an empty location object. -/
theorem claim_C9_witness :
    ("k" : String) ≠ "" ∧ pyStrip "Lyon" ≠ "" ∧
    (([] : List (String × Json)).lookup "name" = none) ∧
    ((extractFields (Json.obj [ ("location", Json.obj []),
        ("current", Json.obj [ ("temp_c", .num "10.0"), ("feelslike_c", .num "9.0"),
          ("humidity", .num "50"), ("wind_kph", .num "5.0"),
          ("condition", .obj [("text", .str "Cloudy")]) ]) ]) (pyStrip "Lyon")).map
        (fun f => f.name) = .ok (.str (pyStrip "Lyon")) ∧
    ((([] : List (String × Json)).lookup "region" = none ∨
      ([] : List (String × Json)).lookup "region" = some (.str "")) →
     (([] : List (String × Json)).lookup "country" = none ∨
      ([] : List (String × Json)).lookup "country" = some (.str "")) →
     (get_weather "k"
        { primary := .ok (Json.obj [ ("location", Json.obj []),
            ("current", Json.obj [ ("temp_c", .num "10.0"), ("feelslike_c", .num "9.0"),
              ("humidity", .num "50"), ("wind_kph", .num "5.0"),
              ("condition", .obj [("text", .str "Cloudy")]) ]) ]),
          icon := fun _ => .fetchFail } "Lyon" sInit =
       { state := { result_text := pyStrip "Lyon" ++ "\nCondition: " ++ "Cloudy" ++
                      "\nTemperature: " ++ "10.0" ++ "°C (feels like " ++ "9.0" ++
                      "°C)\nHumidity: " ++ "50" ++ "%\nWind: " ++ "5.0" ++ " kph",
                    icon_shown := none, icon_image := none },
         calls := [{ url := API_URL, params := [("key", "k"), ("q", pyStrip "Lyon"), ("aqi", "no")] }],
         dialog := none, raised := false }) ∧
     pyStrip "Lyon" ≠ "")) :=
  ⟨by decide, by decide, rfl,
   claim_C9 "k" "Lyon" sInit (fun _ => .fetchFail) [] "Cloudy" "10.0" "9.0" "50" "5.0"
     (by decide) (by decide) rfl⟩

/-- Whether the response body yields no icon URL: either field extraction
raises, or the extracted icon path normalises to the empty URL. -/
def extractNoIcon (data : Json) (location : String) : Bool :=
  match extractFields data location with
  | .ok f => iconUrlOf f.icon_path == ""
  | .error _ => true

/-- Claim C10: for every successful primary response, `get_weather` clears
the previously displayed icon and the stored icon-image reference before
extracting fields, so a stale icon from an earlier query is never displayed
alongside a new result, even when the new response contains no icon path
(here: for every entry state `s0`, whenever the response yields no icon URL
— including when extraction raises — both icon fields end cleared). -/
theorem claim_C10 (api_key entry_text : String) (env : Env) (s0 : UIState) (data : Json)
    (hkey : api_key ≠ "") (hloc : pyStrip entry_text ≠ "")
    (hp : env.primary = .ok data)
    (hni : extractNoIcon data (pyStrip entry_text) = true) :
    (get_weather api_key env entry_text s0).state.icon_shown = none ∧
    (get_weather api_key env entry_text s0).state.icon_image = none := by
  cases hext : extractFields data (pyStrip entry_text) with
  | error e => simp [get_weather, hkey, hloc, hp, hext]
  | ok f =>
    have hurl : iconUrlOf f.icon_path = "" := by
      unfold extractNoIcon at hni
      rw [hext] at hni
      simpa using hni
    cases hdt : detailsText (pyStrip entry_text) f with
    | error e => simp [get_weather, hkey, hloc, hp, hext, hurl, hdt]
    | ok d => simp [get_weather, hkey, hloc, hp, hext, hurl, hdt]

/-- Witness for C10 at a response with no icon path and a state holding a
stale icon. -/
theorem claim_C10_witness :
    ("k" : String) ≠ "" ∧ pyStrip "Rome" ≠ "" ∧
    ((⟨.ok (bodyAll "Rome" "Lazio" "Italy" "Clear" "18.0" "17.0" "40" "7.0"),
       fun _ => .fetchFail⟩ : Env).primary =
      .ok (bodyAll "Rome" "Lazio" "Italy" "Clear" "18.0" "17.0" "40" "7.0")) ∧
    extractNoIcon (bodyAll "Rome" "Lazio" "Italy" "Clear" "18.0" "17.0" "40" "7.0")
      (pyStrip "Rome") = true ∧
    (get_weather "k"
       ⟨.ok (bodyAll "Rome" "Lazio" "Italy" "Clear" "18.0" "17.0" "40" "7.0"),
        fun _ => .fetchFail⟩ "Rome" sInit).state.icon_shown = none ∧
    (get_weather "k"
       ⟨.ok (bodyAll "Rome" "Lazio" "Italy" "Clear" "18.0" "17.0" "40" "7.0"),
        fun _ => .fetchFail⟩ "Rome" sInit).state.icon_image = none := by
  have h := claim_C10 "k" "Rome"
    ⟨.ok (bodyAll "Rome" "Lazio" "Italy" "Clear" "18.0" "17.0" "40" "7.0"),
     fun _ => .fetchFail⟩ sInit
    (bodyAll "Rome" "Lazio" "Italy" "Clear" "18.0" "17.0" "40" "7.0")
    (by decide) (by decide) rfl (by decide)
  exact ⟨by decide, by decide, rfl, by decide, h.1, h.2⟩

end Weather
